import Mathlib

/-!
Shallow embedding of redis-connection-pool.js (node-redis-connection-pool).
Each definition mirrors one function or code path of the source file
src/redis-connection-pool.js; the theorems at the end settle the claims
about the registry, the command dispatcher, the watchdog, the blocking
reply policy, the capability probe and the clean operation.
-/

namespace RedisPool

/-- JavaScript values as far as this library inspects them: the source code
dispatches on typeof and on truthiness only. Numbers are modelled as
integers (the library only handles ports, TTL seconds and the BLPOP
timeout 0); a function value carries an opaque identity. -/
inductive JSVal where
  | undefined
  | null
  | bool (b : Bool)
  | num (n : Int)
  | str (s : String)
  | fn (id : Nat)
deriving DecidableEq

/-- JavaScript truthiness, as used by the tests if (val) in redisSingle and
if (field) in redisHashGet. -/
def truthy : JSVal → Bool
  | .undefined => false
  | .null => false
  | .bool b => b
  | .num n => n != 0
  | .str s => s != ""
  | .fn _ => true

/-- The test typeof v === "function" used by the argument shift in _getFuncs
and by the callback guards in _setFuncs. -/
def isFunction : JSVal → Bool
  | .fn _ => true
  | _ => false

/-- Conversion of a JavaScript value to a property key string, as happens
when a value indexes an object (the registry lookups and stores). The
function case never arises in the source (keys there are strings or
undefined). -/
def jsToKey : JSVal → String
  | .undefined => "undefined"
  | .null => "null"
  | .bool b => if b then "true" else "false"
  | .num n => toString n
  | .str s => s
  | .fn _ => "function"

/-- Configuration object passed to the constructor; each field may be absent
(undefined), mirroring an arbitrary cfg object. -/
structure Config where
  DEBUG : JSVal
  HOST : JSVal
  PORT : JSVal
  MAX_CLIENTS : JSVal
  PERFORM_CHECKS : JSVal
deriving DecidableEq

/-- The empty configuration object, used when cfg is omitted. -/
def Config.empty : Config := ⟨.undefined, .undefined, .undefined, .undefined, .undefined⟩

/-- One RedisConnectionPool object. poolId identifies the generic-pool
instance the constructor created, so a fresh poolId on a returned Instance
means a new Pool came into existence. BLOCKING_SUPPORT, VERSION_STRING and
VERSION_ARRAY are the capability fields written by the probe; their
prototype defaults are true, undefined, undefined. -/
structure Instance where
  UID : String
  DEBUG : Bool
  HOST : String
  PORT : Int
  MAX_CLIENTS : Int
  PERFORM_CHECKS : Bool
  BLOCKING_SUPPORT : Bool
  VERSION_STRING : Option String
  VERSION_ARRAY : Option (List Int)
  poolId : Nat
deriving DecidableEq

/-- The RedisConnectionPool constructor (source lines 57 to 99). Each typeof
check selects the cfg field or falls back to the prototype default. rnd
stands for the number Math.floor((Math.random() * 99999) + 10000) drawn
when uid is not a string, and poolId identifies the Pool the constructor
creates. The construction time capability probe (redisCheck, called at line
97) completes asynchronously and is modelled separately by redisCheck. -/
def RedisConnectionPool (uid : JSVal) (cfg : Config) (rnd : Nat) (poolId : Nat) : Instance where
  UID := match uid with
    | .str s => s
    | _ => "redis-connection-pool-" ++ toString rnd
  DEBUG := match cfg.DEBUG with | .bool b => b | _ => false
  HOST := match cfg.HOST with | .str s => s | _ => "127.0.0.1"
  PORT := match cfg.PORT with | .num n => n | _ => 6379
  MAX_CLIENTS := match cfg.MAX_CLIENTS with | .num n => n | _ => 30
  PERFORM_CHECKS := match cfg.PERFORM_CHECKS with | .bool b => b | _ => false
  BLOCKING_SUPPORT := true
  VERSION_STRING := none
  VERSION_ARRAY := none
  poolId := poolId

/-- Property read on an Instance object: reading a property the object does
not have (for example the lowercase uid) yields undefined, exactly as in
JavaScript. -/
def Instance.getProp (inst : Instance) (name : String) : JSVal :=
  if name = "UID" then .str inst.UID
  else if name = "DEBUG" then .bool inst.DEBUG
  else if name = "HOST" then .str inst.HOST
  else if name = "PORT" then .num inst.PORT
  else if name = "MAX_CLIENTS" then .num inst.MAX_CLIENTS
  else if name = "PERFORM_CHECKS" then .bool inst.PERFORM_CHECKS
  else if name = "BLOCKING_SUPPORT" then .bool inst.BLOCKING_SUPPORT
  else if name = "VERSION_STRING" then
    match inst.VERSION_STRING with
    | some s => .str s
    | none => .undefined
  else .undefined

/-- Association list lookup mirroring property access on the
redisConnectionPools object; a later store with the same key shadows an
earlier one, so lookup scans newest first. -/
def lookupPool : List (String × Instance) → String → Option Instance
  | [], _ => none
  | (k, v) :: rest, key => if k = key then some v else lookupPool rest key

/-- The module level registry closure: the redisConnectionPools object plus
a counter supplying the identity of the next Pool to be created. -/
structure Registry where
  pools : List (String × Instance)
  nextPoolId : Nat
deriving DecidableEq

/-- RedisConnectionPoolWrapper (source lines 552 to 563). If the lookup under
uid finds an object it is returned; otherwise a new RedisConnectionPool is
constructed and stored under redisConnectionPool.uid. Note the lowercase
uid in that store: the field set by the constructor is the uppercase UID,
so this property read yields undefined and the store key is always the
string "undefined". -/
def RedisConnectionPoolWrapper (uid : JSVal) (cfg : Config) (rnd : Nat) (reg : Registry) :
    Instance × Registry :=
  match lookupPool reg.pools (jsToKey uid) with
  | some inst => (inst, reg)
  | none =>
      let inst := RedisConnectionPool uid cfg rnd reg.nextPoolId
      (inst, ⟨(jsToKey (inst.getProp "uid"), inst) :: reg.pools, reg.nextPoolId + 1⟩)

/-- module.exports (source lines 565 to 574), restricted to uid being a
string or omitted; the first branch of the source (an object in the uid
position is shifted into cfg) applies only to callers passing a lone
config, which no claim exercises. An omitted cfg becomes the empty
object. -/
def moduleExports (uid : Option String) (cfg : Option Config) (rnd : Nat) (reg : Registry) :
    Instance × Registry :=
  RedisConnectionPoolWrapper
    (match uid with | some s => .str s | none => .undefined)
    (match cfg with | some c => c | none => Config.empty)
    rnd reg

/-- A configuration naming host hostA, used as a concrete input. -/
def cfgA : Config := ⟨.undefined, .str "hostA", .undefined, .undefined, .undefined⟩

/-- A configuration naming host hostB, used as a concrete input. -/
def cfgB : Config := ⟨.undefined, .str "hostB", .undefined, .undefined, .undefined⟩

/-- C1: the claim fails on the code. Opening identifier x with cfgA and then
opening the same identifier x with cfgB does not return the first Instance:
the wrapper stored the first Instance under the property uid (which is
undefined, the field being UID), so the second call misses the registry,
constructs a second Pool (nextPoolId reaches 2) and returns a fresh
Instance with the cfgB host in effect. -/
theorem C1_registry_bug :
    (moduleExports (some "x") (some cfgB) 0
        (moduleExports (some "x") (some cfgA) 0 ⟨[], 0⟩).2).1.HOST = "hostB"
    ∧ (moduleExports (some "x") (some cfgB) 0
        (moduleExports (some "x") (some cfgA) 0 ⟨[], 0⟩).2).2.nextPoolId = 2
    ∧ (moduleExports (some "x") (some cfgB) 0
        (moduleExports (some "x") (some cfgA) 0 ⟨[], 0⟩).2).1
      ≠ (moduleExports (some "x") (some cfgA) 0 ⟨[], 0⟩).1 := by
  decide

/-- Modelled from the spec: the Pool component is the generic-pool library,
which is a dependency and not among the sources of this repository; its
contract is taken from section 4.1 of the spec. Connections are identified
by numbers; idle is the set of released connections, inUse the checked out
ones, destroyed the forcibly closed ones. The waiter queue and the
max_connections ceiling are not exercised by the claims settled here. -/
structure PoolState where
  idle : List Nat
  inUse : List Nat
  destroyed : List Nat
deriving DecidableEq

/-- Modelled from the spec: release returns the Connection to the idle set;
it is a no-op if the Connection was already destroyed. -/
def PoolState.release (p : PoolState) (c : Nat) : PoolState :=
  if c ∈ p.destroyed then p
  else ⟨c :: p.idle, p.inUse.erase c, p.destroyed⟩

/-- Modelled from the spec: destroy forcibly closes the Connection and
removes it from the tracked set. -/
def PoolState.destroy (p : PoolState) (c : Nat) : PoolState :=
  ⟨p.idle.erase c, p.inUse.erase c, c :: p.destroyed⟩

/-- Modelled from the spec: acquire hands out an idle Connection when one
exists and otherwise creates a fresh one (fresh names the newly created
Connection; capacity bookkeeping is not exercised by the claims here). -/
def PoolState.acquire (p : PoolState) (fresh : Nat) : Nat × PoolState :=
  match p.idle with
  | c :: rest => (c, ⟨rest, c :: p.inUse, p.destroyed⟩)
  | [] => (fresh, ⟨p.idle, fresh :: p.inUse, p.destroyed⟩)

/-- A command as written to the wire: the client method name, the key, and
zero, one or two further positional arguments (the trailing response
callback is left implicit). -/
inductive WireCmd where
  | c1 (name : String) (key : JSVal)
  | c2 (name : String) (key : JSVal) (a : JSVal)
  | c3 (name : String) (key : JSVal) (a : JSVal) (b : JSVal)
deriving DecidableEq

/-- A value handed to a response callback: null stands for the JavaScript
null or undefined argument, arr for an array reply, str for a string reply
and hash for the object reply of HGETALL. -/
inductive CbRes where
  | null
  | str (s : String)
  | arr (xs : List JSVal)
  | hash (fields : List (String × String))
deriving DecidableEq

/-- A response from the store as the node redis client delivers it to the
registered callback: either a reply with no error, or an error with no
reply. -/
inductive StoreResp where
  | ok (reply : CbRes)
  | fail (e : String)
deriving DecidableEq

/-- The err argument the client passes for a given response. -/
def StoreResp.errOf : StoreResp → Option String
  | .ok _ => none
  | .fail e => some e

/-- The reply argument the client passes for a given response (undefined,
modelled as null, when the response is an error). -/
def StoreResp.replyOf : StoreResp → CbRes
  | .ok r => r
  | .fail _ => .null

/-- The argument shift of _setFuncs (source lines 368 to 372): when cb is
undefined the caller omitted field, so the callback is recovered from the
data slot, the payload from the field slot, and field becomes null. The
result triple is (field, data, cb) after normalization. -/
def setFuncsNormalize (field data cb : JSVal) : JSVal × JSVal × JSVal :=
  if cb = JSVal.undefined then (.null, field, data) else (field, data, cb)

/-- Outcome of dispatching one command through _setFuncs or redisSingle: the
wire command issued, the effective callback value, and whether any watchdog
timer was started (neither function contains a setTimeout, so the
construction sites below always record none). -/
structure SetDispatch where
  wire : WireCmd
  cb : JSVal
  watchdog : Option Nat
deriving DecidableEq

/-- _setFuncs (source lines 365 to 415): after the argument shift, hset is
issued with key, field and data, set with key and data, and every other
command (rpush, lpush) with key and data. -/
def setFuncsCall (funcName : String) (key field data cb : JSVal) : SetDispatch :=
  let f := (setFuncsNormalize field data cb).1
  let d := (setFuncsNormalize field data cb).2.1
  let c := (setFuncsNormalize field data cb).2.2
  if funcName = "hset" then ⟨.c3 "hset" key f d, c, none⟩
  else if funcName = "set" then ⟨.c2 "set" key d, c, none⟩
  else ⟨.c2 funcName key d, c, none⟩

/-- redisSingle (source lines 350 to 363): a truthy val is passed as a second
positional argument, otherwise the command takes only the key; the inner
callback merely releases the Connection, so no caller callback exists. -/
def redisSingleCall (funcName : String) (key val : JSVal) : SetDispatch :=
  if truthy val then ⟨.c2 funcName key val, .undefined, none⟩
  else ⟨.c1 funcName key, .undefined, none⟩

/-- The argument shift of _getFuncs (source lines 421 to 424): when field is
a function and cb is undefined, the callback is recovered from the field
slot and field becomes null. The result pair is (field, cb). -/
def getFuncsNormalize (field cb : JSVal) : JSVal × JSVal :=
  if isFunction field ∧ cb = JSVal.undefined then (.null, field) else (field, cb)

/-- Outcome of dispatching one command through _getFuncs: the wire command,
the watchdog timer started for it (duration in milliseconds), and the
effective callback value. -/
structure GetDispatch where
  wire : WireCmd
  watchdog : Option Nat
  cb : JSVal
deriving DecidableEq

/-- redisGet (source lines 443 to 464), dispatch part: the command is issued
with the key alone and a 5000 millisecond watchdog timer is started. -/
def redisGetDispatch (funcName : String) (key cb : JSVal) : GetDispatch :=
  ⟨.c1 funcName key, some 5000, cb⟩

/-- redisBlockingGet (source lines 492 to 519), dispatch part: the blocking
pop is issued with the key and the timeout argument 0 (wait indefinitely);
the stall reporting timer in the source is commented out, so no watchdog is
started. -/
def redisBlockingGetDispatch (funcName : String) (key cb : JSVal) : GetDispatch :=
  ⟨.c2 funcName key (.num 0), none, cb⟩

/-- redisHashGet (source lines 466 to 490), dispatch part: a truthy field
selects hget with key and field, a falsy one selects hgetall with the key
alone; neither branch starts a timer. -/
def redisHashGetDispatch (key field cb : JSVal) : GetDispatch :=
  if truthy field then ⟨.c2 "hget" key field, none, cb⟩
  else ⟨.c1 "hgetall" key, none, cb⟩

/-- _getFuncs (source lines 418 to 440): the argument shift followed by the
if chain on funcName. Both get and hgetall take the first branch into
redisGet; the final hgetall test of the source is therefore unreachable
but is reproduced here. A funcName matching no branch does nothing. -/
def getFuncsCall (funcName : String) (key field cb : JSVal) : Option GetDispatch :=
  let f := (getFuncsNormalize field cb).1
  let c := (getFuncsNormalize field cb).2
  if funcName = "get" ∨ funcName = "hgetall" then some (redisGetDispatch funcName key c)
  else if funcName = "blpop" then some (redisBlockingGetDispatch "blpop" key c)
  else if funcName = "brpop" then some (redisBlockingGetDispatch "brpop" key c)
  else if funcName = "hget" then some (redisHashGetDispatch key f c)
  else if funcName = "hgetall" then some (redisHashGetDispatch key .null c)
  else none

/-- The hget entry point (source lines 217 to 219). -/
def hget (key field cb : JSVal) : Option GetDispatch :=
  getFuncsCall "hget" key field cb

/-- The del entry point (source lines 184 to 186): redisSingle with del and
no value argument. -/
def del (key : JSVal) : SetDispatch :=
  redisSingleCall "del" key .undefined

/-- Output of a response handler in redisGet or redisBlockingGet: the
Instance (read only in these functions, hence returned unchanged), the pool
after the release, the responded closure flag after the handler ran, and
the list of continuation invocations it performed, each as an (error,
result) pair. -/
structure GetHandlerOut where
  self : Instance
  pool : PoolState
  responded : Bool
  cbCalls : List (Option String × CbRes)
deriving DecidableEq

/-- Output of a response handler in _setFuncs or redisHashGet (no responded
flag exists there). -/
structure SetHandlerOut where
  self : Instance
  pool : PoolState
  cbCalls : List (Option String × CbRes)
deriving DecidableEq

/-- The response handler of redisGet (source lines 447 to 456): set
responded, release the Connection, then call cb with (err, null) on an
error and (err, replies) otherwise; cb is invoked unconditionally. -/
def redisGetHandler (self : Instance) (pool : PoolState) (client : Nat) (resp : StoreResp) :
    GetHandlerOut :=
  ⟨self, pool.release client, true,
    match resp with
    | .fail e => [(some e, .null)]
    | .ok r => [(none, r)]⟩

/-- The watchdog body of redisGet (source lines 458 to 463): when the timer
fires after 5000 milliseconds and the response handler has not yet run, the
Connection is destroyed through pool.destroy; otherwise nothing happens. -/
def redisGetOnTimeout (pool : PoolState) (client : Nat) (responded : Bool) : PoolState :=
  if responded then pool else pool.destroy client

/-- The bad reply test of redisBlockingGet (source line 502): the reply is
bad when it is falsy or when its element at index 1 is undefined. A string
reply has a defined index 1 exactly when its length is at least 2, and a
plain object has one exactly when it carries a property named 1; for the
array replies BLPOP and BRPOP actually produce, the test is on the second
element. -/
def badBlockingReply : CbRes → Bool
  | .null => true
  | .arr xs => xs.getD 1 JSVal.undefined == JSVal.undefined
  | .str s => s.length < 2
  | .hash fs => (fs.lookup "1").isNone

/-- The response handler of redisBlockingGet (source lines 496 to 509): set
responded, release the Connection, then deliver (err, null) on a store
error, the fixed error string with an empty array on a bad reply, and
(null, replies) otherwise. -/
def redisBlockingGetHandler (self : Instance) (pool : PoolState) (client : Nat)
    (resp : StoreResp) : GetHandlerOut :=
  ⟨self, pool.release client, true,
    match resp with
    | .fail e => [(some e, .null)]
    | .ok replies =>
        if badBlockingReply replies then [(some "got bad reply from redis", .arr [])]
        else [(none, replies)]⟩

/-- The response handler shared by both branches of redisHashGet (source
lines 470 to 488): release the Connection, then deliver (err, null) on an
error and (err, replies) otherwise. -/
def redisHashGetHandler (self : Instance) (pool : PoolState) (client : Nat)
    (resp : StoreResp) : SetHandlerOut :=
  ⟨self, pool.release client,
    match resp with
    | .fail e => [(some e, .null)]
    | .ok r => [(none, r)]⟩

/-- The response handler shared by the three branches of _setFuncs (source
lines 377 to 412): release the Connection unconditionally, then, when cb is
a function, call it once with the (err, reply) pair the store delivered;
cbIsFn records the typeof cb === "function" guard. -/
def setFuncsHandler (self : Instance) (pool : PoolState) (client : Nat) (cbIsFn : Bool)
    (resp : StoreResp) : SetHandlerOut :=
  ⟨self, pool.release client,
    if cbIsFn then [(resp.errOf, resp.replyOf)] else []⟩

/-- Server metadata delivered on the ready event of the probe connection:
the redis_version string and the parsed versions array. -/
structure ServerInfo where
  redis_version : String
  versions : List Int
deriving DecidableEq

/-- Outcome of the throwaway probe connection in redisCheck: an error event,
a ready event carrying server_info, or a synchronous throw while attaching
the handlers. -/
inductive ProbeOutcome where
  | errorEvent (e : String)
  | readyEvent (info : ServerInfo)
  | connectThrow (e : String)
deriving DecidableEq

/-- A settled deferred promise: resolved with a value or rejected with an
error. -/
inductive Promise where
  | resolved (v : String)
  | rejected (e : String)
deriving DecidableEq

/-- Result of one run of redisCheck: the Instance after the run, how many
times quit was called on the dedicated probe client, the operations it
performed on this.pool, and the settled promise. -/
structure ProbeRun where
  self : Instance
  quitCalls : Nat
  poolOps : List String
  promise : Promise
deriving DecidableEq

/-- redisCheck (source lines 521 to 547). On error: quit and reject with the
error. On ready: record VERSION_STRING and VERSION_ARRAY from server_info,
clear BLOCKING_SUPPORT when the leading version component is below 2 (an
empty versions array leaves the flag alone, as undefined compares false
against 2), quit, and resolve with the version string. On a synchronous
throw: reject with the prefixed message and quit. The function never
touches this.pool, hence poolOps is empty in every branch. -/
def redisCheck (self : Instance) : ProbeOutcome → ProbeRun
  | .errorEvent e => ⟨self, 1, [], .rejected e⟩
  | .readyEvent info =>
      let self1 := { self with
        VERSION_STRING := some info.redis_version,
        VERSION_ARRAY := some info.versions }
      let self2 :=
        if info.versions.headD 2 < 2 then { self1 with BLOCKING_SUPPORT := false } else self1
      ⟨self2, 1, [], .resolved info.redis_version⟩
  | .connectThrow e => ⟨self, 1, [], .rejected ("cannot connect to redis: " ++ e)⟩

/-- Result of one run of clean: the key listing command issued on the
throwaway client, the delete dispatches issued through self.del for each
returned key, and how many times the completion callback ran. -/
structure CleanRun where
  listCmd : WireCmd
  deletes : List SetDispatch
  cbCalls : Nat
deriving DecidableEq

/-- clean (source lines 309 to 330), given the (err, keys) pair the store
delivers for the KEYS command: when keys is an array (even an empty one) a
delete is issued through self.del for each element, independently of err,
which is only logged; the completion callback then runs exactly once. -/
def clean (pattern : String) (err : Option String) (keys : Option (List String)) : CleanRun :=
  ⟨.c1 "keys" (.str pattern),
    match keys, err with
    | some ks, _ => ks.map (fun k => del (.str k))
    | none, _ => [],
    1⟩

/-- A concrete Instance used by the witnesses: identifier x, default
configuration, first Pool. -/
def inst0 : Instance :=
  ⟨"x", false, "127.0.0.1", 6379, 30, false, true, none, none, 0⟩

/-- C2: a watchdog is started by the dispatcher if and only if the
dispatched command is get or hgetall, and its duration is 5000
milliseconds; commands dispatched through _setFuncs or redisSingle start
none; and when the timer fires before the response handler has run, the
Connection goes through Pool.destroy, not a graceful release, while a
timer firing after the response does nothing. -/
theorem C2_watchdog_get_hgetall_only :
    (∀ (fn : String) (key field cb : JSVal) (d : GetDispatch),
        getFuncsCall fn key field cb = some d →
          (d.watchdog = some 5000 ↔ (fn = "get" ∨ fn = "hgetall")))
    ∧ (∀ (fn : String) (key field data cb : JSVal),
        (setFuncsCall fn key field data cb).watchdog = none)
    ∧ (∀ (fn : String) (key val : JSVal),
        (redisSingleCall fn key val).watchdog = none)
    ∧ (∀ (pool : PoolState) (c : Nat),
        redisGetOnTimeout pool c false = pool.destroy c
        ∧ redisGetOnTimeout pool c true = pool) := by
  refine ⟨?_, ?_, ?_, fun pool c => ⟨rfl, rfl⟩⟩
  · intro fn key field cb d h
    simp only [getFuncsCall] at h
    split_ifs at h with h1 h2 h3 h4 h5
    · simp only [Option.some.injEq] at h
      subst h
      exact iff_of_true rfl h1
    · simp only [Option.some.injEq] at h
      subst h
      exact iff_of_false (by simp [redisBlockingGetDispatch]) h1
    · simp only [Option.some.injEq] at h
      subst h
      exact iff_of_false (by simp [redisBlockingGetDispatch]) h1
    · simp only [Option.some.injEq] at h
      subst h
      refine iff_of_false ?_ h1
      unfold redisHashGetDispatch
      split_ifs <;> simp
    · simp only [Option.some.injEq] at h
      subst h
      refine iff_of_false ?_ h1
      unfold redisHashGetDispatch
      split_ifs <;> simp
  · intro fn key field data cb
    simp only [setFuncsCall]
    split_ifs <;> rfl
  · intro fn key val
    simp only [redisSingleCall]
    split_ifs <;> rfl

/-- Witness for C2: the get dispatch at a concrete key starts the 5000
millisecond watchdog, and the blpop dispatch starts none. -/
theorem C2_watchdog_witness :
    (redisGetDispatch "get" (JSVal.str "k") (JSVal.fn 0)).watchdog = some 5000
    ∧ (redisBlockingGetDispatch "blpop" (JSVal.str "q") (JSVal.fn 0)).watchdog
        ≠ some 5000 := by
  constructor
  · exact (C2_watchdog_get_hgetall_only.1 "get" (JSVal.str "k") (JSVal.fn 0) JSVal.undefined
      (redisGetDispatch "get" (JSVal.str "k") (JSVal.fn 0)) (by decide)).mpr (Or.inl rfl)
  · intro hcontra
    exact absurd
      ((C2_watchdog_get_hgetall_only.1 "blpop" (JSVal.str "q") (JSVal.fn 0) JSVal.undefined
        (redisBlockingGetDispatch "blpop" (JSVal.str "q") (JSVal.fn 0)) (by decide)).mp
          hcontra)
      (by decide)

/-- C3: a BLPOP or BRPOP reply [q, value1] is delivered as (null,
[q, value1]); an absent reply, or one whose second element is missing such
as [q], is delivered through the normal continuation as the error string
got bad reply from redis together with an empty array. -/
theorem C3_blocking_reply_policy :
    ∀ (self : Instance) (pool : PoolState) (client : Nat),
      (redisBlockingGetHandler self pool client
          (.ok (.arr [.str "q", .str "value1"]))).cbCalls
        = [(none, .arr [.str "q", .str "value1"])]
      ∧ (redisBlockingGetHandler self pool client (.ok (.arr [.str "q"]))).cbCalls
        = [(some "got bad reply from redis", .arr [])]
      ∧ (redisBlockingGetHandler self pool client (.ok .null)).cbCalls
        = [(some "got bad reply from redis", .arr [])] := by
  intro self pool client
  exact ⟨rfl, rfl, rfl⟩

/-- C4: once the watchdog has destroyed the Connection of a guarded get or
hgetall (the handler had not responded), a late firing of the original
response handler completes without putting the destroyed Connection back
into the idle set, and no later acquisition can return it. -/
theorem C4_no_double_release (self : Instance) (p : PoolState) (c : Nat)
    (resp : StoreResp) (hc : c ∉ p.idle) :
    c ∉ (redisGetHandler self (redisGetOnTimeout p c false) c resp).pool.idle
    ∧ c ∈ (redisGetHandler self (redisGetOnTimeout p c false) c resp).pool.destroyed
    ∧ ∀ fresh : Nat, fresh ≠ c →
        ((redisGetHandler self (redisGetOnTimeout p c false) c resp).pool.acquire
            fresh).1 ≠ c := by
  have hpool : (redisGetHandler self (redisGetOnTimeout p c false) c resp).pool
      = ⟨p.idle, p.inUse.erase c, c :: p.destroyed⟩ := by
    show PoolState.release (PoolState.destroy p c) c = _
    simp only [PoolState.destroy, PoolState.release]
    simp [List.erase_of_not_mem hc]
  rw [hpool]
  refine ⟨hc, List.mem_cons_self c p.destroyed, ?_⟩
  intro fresh hf
  simp only [PoolState.acquire]
  cases hidle : p.idle with
  | nil => simpa using hf
  | cons x rest =>
      have hx : x ∈ p.idle := by
        rw [hidle]
        exact List.mem_cons_self x rest
      simp only []
      intro hxc
      exact hc (hxc ▸ hx)

/-- Witness for C4: Connection 3 is checked out (not idle), the watchdog
destroys it, the late handler fires, and Connection 3 is neither idle nor
obtainable from a later acquisition. -/
theorem C4_no_double_release_witness :
    3 ∉ (redisGetHandler inst0 (redisGetOnTimeout ⟨[7], [3], []⟩ 3 false) 3
        (.ok (.str "v"))).pool.idle
    ∧ 3 ∈ (redisGetHandler inst0 (redisGetOnTimeout ⟨[7], [3], []⟩ 3 false) 3
        (.ok (.str "v"))).pool.destroyed
    ∧ ((redisGetHandler inst0 (redisGetOnTimeout ⟨[7], [3], []⟩ 3 false) 3
        (.ok (.str "v"))).pool.acquire 9).1 ≠ 3 := by
  have h := C4_no_double_release inst0 ⟨[7], [3], []⟩ 3 (.ok (.str "v")) (by decide)
  exact ⟨h.1, h.2.1, h.2.2 9 (by decide)⟩

/-- C5: the capability probe quits its dedicated client exactly once in
every outcome, performs no operation on the pool (the probe client is never
added to it), and a connection failure surfaces as a rejected promise to
whoever awaits it, in both the error event and the synchronous throw
case. -/
theorem C5_probe_closes_and_rejects :
    ∀ (self : Instance) (out : ProbeOutcome),
      (redisCheck self out).quitCalls = 1
      ∧ (redisCheck self out).poolOps = []
      ∧ (∀ e : String, (redisCheck self (.errorEvent e)).promise = .rejected e)
      ∧ (∀ e : String,
          (redisCheck self (.connectThrow e)).promise
            = .rejected ("cannot connect to redis: " ++ e)) := by
  intro self out
  refine ⟨?_, ?_, fun e => rfl, fun e => rfl⟩
  · cases out <;> rfl
  · cases out <;> rfl

/-- The Instance a ready probe reply leaves behind: version string and
array recorded, and BLOCKING_SUPPORT cleared exactly when the leading
version component is below 2. -/
theorem redisCheck_ready_self (self : Instance) (info : ServerInfo) :
    (redisCheck self (.readyEvent info)).self =
      { self with
        VERSION_STRING := some info.redis_version,
        VERSION_ARRAY := some info.versions,
        BLOCKING_SUPPORT :=
          if info.versions.headD 2 < 2 then false else self.BLOCKING_SUPPORT } := by
  simp only [redisCheck]
  split_ifs <;> rfl

/-- C6: a ready probe reply records the version string and version array; a
leading version component below 2 clears BLOCKING_SUPPORT, and otherwise
the flag is left as it was (so a true flag stays true); ordinary command
execution returns the Instance untouched, so the capability fields never
change outside the probe. -/
theorem C6_capability_flags :
    (∀ (self : Instance) (info : ServerInfo),
        (redisCheck self (.readyEvent info)).self.VERSION_STRING
            = some info.redis_version
        ∧ (redisCheck self (.readyEvent info)).self.VERSION_ARRAY
            = some info.versions
        ∧ (info.versions.headD 2 < 2 →
            (redisCheck self (.readyEvent info)).self.BLOCKING_SUPPORT = false)
        ∧ (¬ info.versions.headD 2 < 2 →
            (redisCheck self (.readyEvent info)).self.BLOCKING_SUPPORT
              = self.BLOCKING_SUPPORT))
    ∧ (∀ (self : Instance) (pool : PoolState) (client : Nat) (resp : StoreResp),
        (redisGetHandler self pool client resp).self = self
        ∧ (redisBlockingGetHandler self pool client resp).self = self
        ∧ (redisHashGetHandler self pool client resp).self = self
        ∧ ∀ cbIsFn : Bool, (setFuncsHandler self pool client cbIsFn resp).self = self) := by
  constructor
  · intro self info
    rw [redisCheck_ready_self]
    refine ⟨rfl, rfl, fun hlt => ?_, fun hge => ?_⟩
    · show (if info.versions.headD 2 < 2 then false else self.BLOCKING_SUPPORT) = false
      rw [if_pos hlt]
    · show (if info.versions.headD 2 < 2 then false else self.BLOCKING_SUPPORT)
          = self.BLOCKING_SUPPORT
      rw [if_neg hge]
  · intro self pool client resp
    exact ⟨rfl, rfl, rfl, fun cbIsFn => rfl⟩

/-- Witness for C6: a probe reporting version 1.2.3 clears the flag on the
default Instance, while 2.6.0 leaves it true. -/
theorem C6_capability_flags_witness :
    (redisCheck inst0 (.readyEvent ⟨"1.2.3", [1, 2, 3]⟩)).self.BLOCKING_SUPPORT = false
    ∧ (redisCheck inst0 (.readyEvent ⟨"2.6.0", [2, 6, 0]⟩)).self.BLOCKING_SUPPORT
        = true := by
  constructor
  · exact (C6_capability_flags.1 inst0 ⟨"1.2.3", [1, 2, 3]⟩).2.2.1 (by decide)
  · exact ((C6_capability_flags.1 inst0 ⟨"2.6.0", [2, 6, 0]⟩).2.2.2 (by decide)).trans rfl

/-- C7: for every write command response the handler releases the
Connection unconditionally (success or error); a function continuation is
invoked exactly once with the (error, result) pair the store delivered, a
store error arriving as (error, null); an absent continuation means no
invocation, and nothing is thrown or retried. -/
theorem C7_set_release_and_callback :
    ∀ (self : Instance) (pool : PoolState) (client : Nat) (resp : StoreResp),
      (∀ cbIsFn : Bool,
          (setFuncsHandler self pool client cbIsFn resp).pool = pool.release client)
      ∧ (setFuncsHandler self pool client true resp).cbCalls
          = [(resp.errOf, resp.replyOf)]
      ∧ (∀ e : String,
          (setFuncsHandler self pool client true (.fail e)).cbCalls = [(some e, .null)])
      ∧ (setFuncsHandler self pool client false resp).cbCalls = [] := by
  intro self pool client resp
  exact ⟨fun cbIsFn => rfl, rfl, fun e => rfl, rfl⟩

/-- C8: clean issues the key listing for its pattern and one delete per
returned key, and signals completion exactly once, also with zero keys; an
error from the listing step changes neither the deletes issued for the
returned keys nor the single completion signal. -/
theorem C8_clean :
    ∀ (pattern : String) (e : String) (ks : List String)
      (keys : Option (List String)),
      (clean pattern none keys).listCmd = .c1 "keys" (.str pattern)
      ∧ clean pattern (some e) keys = clean pattern none keys
      ∧ (clean pattern none (some ks)).deletes = ks.map (fun k => del (.str k))
      ∧ (clean pattern none (some [])).deletes = []
      ∧ (∀ err : Option String, (clean pattern err keys).cbCalls = 1) := by
  intro pattern e ks keys
  refine ⟨rfl, ?_, rfl, rfl, fun err => rfl⟩
  cases keys <;> rfl

/-- C9: a call omitting field, with the continuation arriving one slot
early, is detected from the argument types and dispatches exactly as the
explicit form with a null field: same command name, key, payload and
continuation, through _setFuncs as well as through _getFuncs. -/
theorem C9_argument_shift :
    ∀ (key payload cb : JSVal), isFunction cb = true →
      (∀ fn : String,
          setFuncsCall fn key payload cb .undefined = setFuncsCall fn key .null payload cb)
      ∧ (∀ fn : String,
          getFuncsCall fn key cb .undefined = getFuncsCall fn key .null cb) := by
  intro key payload cb hcb
  obtain ⟨i, rfl⟩ : ∃ i, cb = JSVal.fn i := by
    cases cb <;> simp_all [isFunction]
  constructor
  · intro fn
    simp [setFuncsCall, setFuncsNormalize]
  · intro fn
    simp [getFuncsCall, getFuncsNormalize, isFunction]

/-- Witness for C9: set with the payload and continuation shifted left
equals set with an explicit null field, and likewise get. -/
theorem C9_argument_shift_witness :
    setFuncsCall "set" (JSVal.str "k") (JSVal.str "v") (JSVal.fn 0) .undefined
      = setFuncsCall "set" (JSVal.str "k") .null (JSVal.str "v") (JSVal.fn 0)
    ∧ getFuncsCall "get" (JSVal.str "k") (JSVal.fn 0) .undefined
      = getFuncsCall "get" (JSVal.str "k") .null (JSVal.fn 0) :=
  ⟨(C9_argument_shift (JSVal.str "k") (JSVal.str "v") (JSVal.fn 0) rfl).1 "set",
   (C9_argument_shift (JSVal.str "k") (JSVal.str "v") (JSVal.fn 0) rfl).2 "get"⟩

/-- C10: hget dispatches on the truthiness of field rather than its
presence: a falsy non function field such as the empty string routes the
call to hgetall on the key (with the continuation intact and no watchdog),
and the handler then delivers the whole hash. -/
theorem C10_hget_falsy_field :
    (∀ (key cb : JSVal),
        hget key (.str "") cb = some ⟨.c1 "hgetall" key, none, cb⟩)
    ∧ (∀ (self : Instance) (pool : PoolState) (client : Nat)
          (fs : List (String × String)),
        (redisHashGetHandler self pool client (.ok (.hash fs))).cbCalls
          = [(none, .hash fs)]) := by
  constructor
  · intro key cb
    simp [hget, getFuncsCall, getFuncsNormalize, isFunction, redisHashGetDispatch, truthy]
  · intro self pool client fs
    rfl

end RedisPool
